import Mathlib

/-!
Verification of the MLE intrinsic-dimension estimator
(file src/skdim/id/_MLE.py of KonstantinKlepikov/scikit-dimension)
against its natural-language specification.

The development is a shallow embedding of the Python class MLE:
pure numerical formulas become functions over the real numbers,
the mutable attribute state of the estimator object becomes an
explicit state record, control flow with raised exceptions becomes
Except values and event traces, and the late-bound Python lambda
assigned to self.dnoise becomes a fuel-indexed evaluation function.
-/

namespace SkdimMLE

/-- State of the stored attribute self.dnoise of an MLE object.
Constructor meanings, following the source:
none is Python None (default);
gaussHName is the configuration string "dnoiseGaussH";
gaussHFn is the bound method self._dnoiseGaussH (assigned at line 275);
selfLambda is the lambda assigned at line 278,
  lambda r, s, sigma, k: r * self.dnoise(r, s, sigma, k),
whose body looks up self.dnoise at call time (Python late binding), i.e.
after the assignment it calls the very lambda it denotes. -/
inductive Dnoise
  | none
  | gaussHName
  | gaussHFn
  | selfLambda
deriving DecidableEq, Repr

/-- Python exceptions that the fit path of _MLE.py can raise. -/
inductive PyError
  | nameError (missing : String)
  | valueError (msg : String)
  | recursionError
deriving DecidableEq, Repr

/-- The constructor-stored options of an MLE object (lines 87-102).
A field for each stored attribute named by the specification. -/
structure StoredOptions where
  dnoise : Dnoise
  sigma : ℝ
  n : Option ℕ
  integral_approximation : String
  unbiased : Bool
  neighborhood_based : Bool
  K : ℕ

/-- The noise-model resolution performed at the top of _fit
(lines 274-278): first the string "dnoiseGaussH" is replaced by the
bound method; then, when integral_approximation is not "Haro" and the
(already replaced) dnoise is not None, self.dnoise is reassigned to the
self-referential lambda of line 278. -/
def resolveDnoise (ia : String) (d : Dnoise) : Dnoise :=
  let d1 := if d = Dnoise.gaussHName then Dnoise.gaussHFn else d
  if ia ≠ "Haro" ∧ d1 ≠ Dnoise.none then Dnoise.selfLambda else d1

/-- The Gaussian transition density _dnoiseGaussH (lines 323-325):
exp(-0.5*((s-r)/sigma)^2) / (sigma*sqrt(2*pi)).  The compatibility
parameter k of the Python signature is unused by the body. -/
noncomputable def gaussH (r s sigma : ℝ) : ℝ :=
  Real.exp (-0.5 * ((s - r) / sigma) ^ 2) / (sigma * Real.sqrt (2 * Real.pi))

/-- Calling the stored dnoise value as a function, with an explicit
recursion budget (Python's recursion limit).  Calling None or the raw
configuration string is not a function call that yields a number, so
those states yield no value.  Calling selfLambda evaluates
r * self.dnoise(r, s, sigma, k), where self.dnoise at call time is
selfLambda itself; each step consumes one unit of fuel, so the call
never produces a value (in Python: RecursionError). -/
noncomputable def evalDnoise : ℕ → Dnoise → ℝ → ℝ → ℝ → ℝ → Option ℝ
  | _, Dnoise.none, _, _, _, _ => Option.none
  | _, Dnoise.gaussHName, _, _, _, _ => Option.none
  | _, Dnoise.gaussHFn, r, s, sigma, _ => Option.some (gaussH r s sigma)
  | 0, Dnoise.selfLambda, _, _, _, _ => Option.none
  | Nat.succ fuel, Dnoise.selfLambda, r, s, sigma, k =>
      Option.map (fun v => r * v) (evalDnoise fuel Dnoise.selfLambda r s sigma k)

/-- The per-point loop of _maxLikPointwiseDimEst (lines 251-253) calls
self._fit once per point, and every _fit call performs the dnoise
resolution of lines 274-278 on the shared mutable attribute; this
iterates the resolution step once per point. -/
def pointwiseLoopDnoise (ia : String) : ℕ → Dnoise → Dnoise
  | 0, d => d
  | Nat.succ m, d => pointwiseLoopDnoise ia m (resolveDnoise ia d)

/-- Events of one _fit call (lines 265-287), in execution order.
computeEstimate marks entry into _maxLikDimEstFromR_haro_approx at
line 280 (the start of numerical work); raiseRecursion is the
RecursionError raised inside that call's integration when the stored
dnoise is the self-referential lambda; raiseIteration is the ValueError
of lines 281-284, reached only after line 280 returns. -/
inductive FitEvent
  | raiseUnknownIA
  | computeEstimate
  | raiseRecursion
  | raiseIteration
  | returnEstimate
deriving DecidableEq, Repr

/-- The three recognized integral_approximation modes (lines 267-271). -/
def threeModes : List String := ["Haro", "guaranteed.convergence", "iteration"]

/-- Control-flow trace of one _fit call, given the stored dnoise state
at entry: the membership check of lines 267-272 raises first on an
unknown mode; otherwise lines 274-278 resolve the dnoise state and
line 280 enters _maxLikDimEstFromR_haro_approx.  When the resolved
dnoise is the self-referential lambda, the first integrand evaluation
inside line 280 recurses without bound and a RecursionError aborts the
call mid-integration; otherwise line 280 completes, and only then does
line 281 raise for the "iteration" mode; otherwise the estimate is
returned. -/
def fitTrace (ia : String) (d : Dnoise) : List FitEvent :=
  if ia ∈ threeModes then
    if resolveDnoise ia d = Dnoise.selfLambda then
      [FitEvent.computeEstimate, FitEvent.raiseRecursion]
    else if ia = "iteration" then [FitEvent.computeEstimate, FitEvent.raiseIteration]
    else [FitEvent.computeEstimate, FitEvent.returnEstimate]
  else [FitEvent.raiseUnknownIA]

/-- Whether an event is a raised exception. -/
def isRaise : FitEvent → Bool
  | FitEvent.raiseUnknownIA => true
  | FitEvent.raiseRecursion => true
  | FitEvent.raiseIteration => true
  | _ => false

/-- A _fit call fails fast when its very first event is a raise,
i.e. the error precedes any numerical work. -/
def failsFastAt (ia : String) (d : Dnoise) : Bool :=
  match fitTrace ia d with
  | e :: _ => isRaise e
  | [] => false

/-- np.max over a nonempty array, embedded on lists: fold of the binary
maximum over the elements (seeded with the head, so that on nonempty
lists this is exactly the maximum; np.max on an empty array errors and
is never reached here because fit guarantees nonempty rows). -/
noncomputable def npMax (l : List ℝ) : ℝ := l.foldl max (l.headD 0)

/-- The closed-form branch of _maxLikDimEstFromR_haro_approx
(lines 294-299), reached when self.dnoise is None:
k = len(Rs); kfac = k-2 if unbiased else k-1; Rk = np.max(Rs);
return kfac / np.sum(np.log(Rk / Rs)). -/
noncomputable def maxLikDimEstFromR_noNoise (unbiased : Bool) (Rs : List ℝ) : ℝ :=
  let k : ℕ := Rs.length
  let kfac : ℝ := if unbiased then (k : ℝ) - 2 else (k : ℝ) - 1
  let Rk : ℝ := npMax Rs
  kfac / (Rs.map (fun r => Real.log (Rk / r))).sum

/-- np.mean on lists: sum divided by length. -/
noncomputable def npMean (l : List ℝ) : ℝ := l.sum / (l.length : ℝ)

/-- np.median on lists: the middle element of the sorted arrangement for
odd length, the average of the two middle elements for even length. -/
noncomputable def npMedian (l : List ℝ) : ℝ :=
  let s := l.insertionSort (fun a b => a ≤ b)
  if l.length % 2 = 1 then s.getD (l.length / 2) 0
  else ((s.getD (l.length / 2 - 1) 0) + (s.getD (l.length / 2) 0)) / 2

/-- The message of the ValueError raised for an invalid comb parameter
(lines 170-172 of fit).  Written with hexadecimal escapes for the
single-quote characters of the original message. -/
def combErrorMsg : String :=
  "Invalid comb parameter. It has to be \x27mean\x27 or \x27median\x27"

/-- The combination step of fit in neighborhood-based mode
(lines 163-172): branch order and formulas of the source
(np.mean, np.median, then 1 / np.mean(1 / estimates), else raise). -/
noncomputable def combine (comb : String) (pw : List ℝ) : Except PyError ℝ :=
  if comb = "mean" then Except.ok (npMean pw)
  else if comb = "median" then Except.ok (npMedian pw)
  else if comb = "mle" then Except.ok (1 / npMean (pw.map (fun x => 1 / x)))
  else Except.error (PyError.valueError combErrorMsg)

/-- Subsequence test on character lists: whether the first list occurs,
in order but not necessarily contiguously, inside the second.  Absence
of a subsequence implies absence as a contiguous substring, so a false
result is a conservative certificate that a token does not occur inside
an error message. -/
def charsAt : List Char → List Char → Bool
  | [], _ => true
  | _ :: _, [] => false
  | p :: ps, c :: cs => (p = c && charsAt ps cs) || charsAt (p :: ps) cs

/-- Whether the characters of pat occur in order (as a subsequence)
inside s; a false result guarantees pat is not a contiguous substring
of s either. -/
def containsStr (s pat : String) : Bool := charsAt pat.toList s.toList

/-- Events of the neighborhood-based branch of fit (lines 160-172),
in execution order: line 161 computes every pointwise estimate first,
and only then is the comb parameter examined. -/
inductive NbEvent
  | computePointwise
  | combineOk
  | raiseInvalidComb
deriving DecidableEq, Repr

/-- Control-flow trace of the neighborhood-based branch of fit
(lines 160-172): the pointwise-estimate loop always runs first;
an unrecognized comb value raises only afterwards. -/
def neighborhoodTrace (comb : String) : List NbEvent :=
  if comb = "mean" ∨ comb = "median" ∨ comb = "mle" then
    [NbEvent.computePointwise, NbEvent.combineOk]
  else [NbEvent.computePointwise, NbEvent.raiseInvalidComb]

/-- Shape data of the input X as seen by fit: len(X) (the first
dimension), the number of features (second dimension when 2-D), and
whether the array is 2-D. -/
structure InputX where
  nSamples : ℕ
  nFeatures : ℕ
  is2d : Bool
deriving DecidableEq, Repr

/-- sklearn.utils.validation.check_array as called at lines 148-150:
raises (ValueError) on a non-2-D array, on fewer samples than
ensure_min_samples, or on fewer features than ensure_min_features. -/
def checkArray (x : InputX) (minSamples minFeatures : ℕ) : Except PyError Unit :=
  if x.is2d = false then Except.error (PyError.valueError "Expected 2D array")
  else if x.nSamples < minSamples then
    Except.error (PyError.valueError "Found array with too few samples")
  else if x.nFeatures < minFeatures then
    Except.error (PyError.valueError "Found array with too few features")
  else Except.ok ()

/-- The validation prologue of fit (lines 136-158), up to and including
check_array; everything here runs before the neighbor search, before the
precomputed_knn_arrays branch is consulted, and before any estimation.
n_neighbors defaults to the class constant _N_NEIGHBORS = 20 (line 85).
The clamp branches of lines 139-144 call warnings.warn, but the module
_MLE.py never imports warnings (lines 32-36), so the name lookup raises
NameError before any clamping assignment takes effect.  The precomputed
argument is accepted but not consulted by any of these steps. -/
def fitValidate (x : InputX) (nNeighborsArg : Option ℕ) (K : ℕ)
    (precomputed : Bool) : Except PyError Unit :=
  let nNb := nNeighborsArg.getD 20
  if x.nSamples ≤ nNb then Except.error (PyError.nameError "warnings")
  else if x.nSamples ≤ K then Except.error (PyError.nameError "warnings")
  else checkArray x (nNb + 1) 2

/-- Effect of one fit call on the constructor-stored options, together
with its outcome, for a well-shaped 2-D input with at least two features
and the default comb="mle".  lenX is len(X) and nNb the resolved
n_neighbors.  The clamp branches (lines 139-144) raise NameError (the
warnings module is not imported) before mutating anything; otherwise the
first _fit call (line 253 or line 189) validates integral_approximation
(lines 267-272, before any mutation) and then performs the dnoise
resolution of lines 274-278 on the stored attribute.  When the resolved
dnoise is the self-referential lambda, its first evaluation inside the
integrand recurses without bound (RecursionError); when
integral_approximation is "iteration", line 280 computes an estimate and
line 281 then raises ValueError.  The returned state is the stored state
after the call, whether it returned or raised. -/
def fitStored (o : StoredOptions) (lenX nNb : ℕ) :
    Except PyError Unit × StoredOptions :=
  if lenX ≤ nNb ∨ lenX ≤ o.K then
    (Except.error (PyError.nameError "warnings"), o)
  else if o.integral_approximation ∈ threeModes then
    let o1 : StoredOptions :=
      { o with dnoise := resolveDnoise o.integral_approximation o.dnoise }
    if o1.dnoise = Dnoise.selfLambda then (Except.error PyError.recursionError, o1)
    else if o.integral_approximation = "iteration" then
      (Except.error (PyError.valueError "iteration not implemented"), o1)
    else (Except.ok (), o1)
  else
    (Except.error (PyError.valueError "Unknown integral_approximation parameter"), o)

/-- The downstream call made by _fit at line 280:
self._maxLikDimEstFromR_haro_approx(Rs, self.sigma).  Records the
distance vector and the noise scale actually handed to the integrator
(used for Rpr at line 301 and inside both integrands, lines 307, 310). -/
structure HaroCall where
  Rs : List ℝ
  sigma : ℝ

/-- Embedding of _fit (lines 265-287) up to its downstream call: after
the integral_approximation validation, line 280 passes self.sigma to
_maxLikDimEstFromR_haro_approx.  The sigma parameter of _fit (the
second argument of every self._fit call) is never read by the body. -/
def fitDownstreamCall (o : StoredOptions) (Rs : List ℝ) (sigmaArg : ℝ) :
    Except PyError HaroCall :=
  if o.integral_approximation ∈ threeModes then Except.ok ⟨Rs, o.sigma⟩
  else Except.error (PyError.valueError "Unknown integral_approximation parameter")

/-- The distance vector built by the non-neighborhood-based branch of
fit (lines 185-187): np.sort(np.array(list(set(dists.flatten()))))
truncated to the first n_neighbors entries, i.e. the ascending sorted
arrangement of the deduplicated flattened distance matrix, truncated.
The flatten order (Fortran order in the source) is irrelevant after
set() and sort. -/
noncomputable def buildGlobalRs (dists : List (List ℝ)) (nNeighbors : ℕ) : List ℝ :=
  ((dists.flatten.dedup).insertionSort (fun a b => a ≤ b)).take nNeighbors

/-- The non-neighborhood-based branch of fit (lines 184-189): builds the
global distance vector and calls self._fit(Rs, np.sqrt(2) * self.sigma)
exactly once. -/
noncomputable def fitGlobalBranch (o : StoredOptions) (dists : List (List ℝ))
    (nNeighbors : ℕ) : Except PyError HaroCall :=
  fitDownstreamCall o (buildGlobalRs dists nNeighbors) (Real.sqrt 2 * o.sigma)

/-! Helper lemmas -/

theorem sum_map_eq_sum_range (f : ℝ → ℝ) :
    ∀ l : List ℝ, (l.map f).sum = ∑ i ∈ Finset.range l.length, f (l.getD i 0)
  | [] => by simp
  | a :: t => by
    rw [List.map_cons, List.sum_cons, List.length_cons, Finset.sum_range_succ']
    simp [List.getD_cons_succ, List.getD_cons_zero, sum_map_eq_sum_range f t, add_comm]

theorem le_foldl_max (l : List ℝ) :
    ∀ a : ℝ, a ≤ l.foldl max a ∧ ∀ x ∈ l, x ≤ l.foldl max a := by
  induction l with
  | nil => intro a; exact ⟨le_refl a, by simp⟩
  | cons b t ih =>
    intro a
    rw [List.foldl_cons]
    refine ⟨le_trans (le_max_left a b) (ih (max a b)).1, ?_⟩
    intro x hx
    rcases List.mem_cons.mp hx with h | h
    · subst h; exact le_trans (le_max_right a x) (ih (max a x)).1
    · exact (ih (max a b)).2 x h

theorem foldl_max_mem (l : List ℝ) : ∀ a : ℝ, l.foldl max a ∈ a :: l := by
  induction l with
  | nil => simp
  | cons b t ih =>
    intro a
    rw [List.foldl_cons]
    rcases List.mem_cons.mp (ih (max a b)) with h | h
    · rw [h]
      rcases max_choice a b with hm | hm <;> rw [hm] <;> simp
    · simp [h]

theorem npMax_cons (a : ℝ) (t : List ℝ) : npMax (a :: t) = t.foldl max a := by
  simp [npMax, List.foldl_cons, max_self]

theorem npMax_mem (l : List ℝ) (h : l ≠ []) : npMax l ∈ l := by
  cases l with
  | nil => exact absurd rfl h
  | cons a t => rw [npMax_cons]; exact foldl_max_mem t a

theorem le_npMax (l : List ℝ) : ∀ x ∈ l, x ≤ npMax l := by
  cases l with
  | nil => simp
  | cons a t =>
    intro x hx
    rw [npMax_cons]
    rcases List.mem_cons.mp hx with h | h
    · exact h ▸ (le_foldl_max t x).1
    · exact (le_foldl_max t a).2 x h

theorem foldl_max_map_mul (c : ℝ) (hc : 0 ≤ c) :
    ∀ (l : List ℝ) (a : ℝ),
      (l.map (fun r => c * r)).foldl max (c * a) = c * l.foldl max a := by
  intro l
  induction l with
  | nil => intro a; rfl
  | cons b t ih =>
    intro a
    rw [List.map_cons, List.foldl_cons, List.foldl_cons, ← mul_max_of_nonneg _ _ hc, ih]

theorem npMax_map_mul (c : ℝ) (hc : 0 ≤ c) (l : List ℝ) :
    npMax (l.map (fun r => c * r)) = c * npMax l := by
  cases l with
  | nil => simp [npMax]
  | cons a t => rw [List.map_cons, npMax_cons, npMax_cons, foldl_max_map_mul c hc]

/-! Claim theorems -/

/-- C1: the specification claims that for a fit with
integral_approximation not "Haro" and a noise model present, the density
used by the integrator equals r * density(r, s, sigma, k) for the
originally configured density, resolved exactly once per fit call.  The
code instead reassigns self.dnoise to a lambda whose body looks up
self.dnoise at call time, i.e. the lambda itself: the resolution
produces the self-referential state, whose evaluation yields no value at
any recursion budget (Python: RecursionError), while the unwrapped
Gaussian density evaluates normally; and the rewrite runs inside _fit,
hence once per point, not once per fit. -/
theorem C1_dnoise_rewrite_diverges :
    resolveDnoise "guaranteed.convergence" Dnoise.gaussHName = Dnoise.selfLambda
    ∧ (∀ (fuel : ℕ) (r s sigma k : ℝ),
        evalDnoise fuel Dnoise.selfLambda r s sigma k = Option.none)
    ∧ (∀ (fuel : ℕ) (r s sigma k : ℝ),
        evalDnoise fuel Dnoise.gaussHFn r s sigma k = Option.some (gaussH r s sigma))
    ∧ (∀ d : Dnoise, pointwiseLoopDnoise "guaranteed.convergence" 2 d
        = resolveDnoise "guaranteed.convergence"
            (resolveDnoise "guaranteed.convergence" d)) := by
  refine ⟨by decide, ?_, ?_, fun d => rfl⟩
  · intro fuel
    induction fuel with
    | zero => intro r s sigma k; rfl
    | succ m ih => intro r s sigma k; rw [evalDnoise, ih r s sigma k]; rfl
  · intro fuel r s sigma k
    cases fuel <;> rfl

/-- C3 counterexample: with integral_approximation = "iteration" the
first event of the _fit trace is the entry into the estimate
computation of line 280, not a raise — both without a noise model
(where the ValueError comes only after the estimate is computed and
discarded) and with one (where a RecursionError aborts the
integration) — so the claim that the error precedes all numerical work
is false at this input. -/
theorem C3_iteration_work_before_raise :
    failsFastAt "iteration" Dnoise.none = false
    ∧ fitTrace "iteration" Dnoise.none
        = [FitEvent.computeEstimate, FitEvent.raiseIteration]
    ∧ failsFastAt "iteration" Dnoise.gaussHName = false := by
  refine ⟨rfl, rfl, rfl⟩

/-- C3 amended: a value of integral_approximation outside the three
named modes raises the validation error before any numerical work, for
every dnoise state.  The "iteration" mode never returns an estimate,
but its error never precedes the numerical work of line 280: the first
trace event is always the entry into the estimate computation, and the
run then ends in a RecursionError exactly when the resolved dnoise is
the self-referential lambda (i.e. a noise model is present), as with
dnoise = "dnoiseGaussH"; with no noise model the estimate is computed
and discarded and only then is the ValueError raised. -/
theorem C3_unknown_mode_fails_fast (ia : String) (d : Dnoise) (h : ia ∉ threeModes) :
    failsFastAt ia d = true
    ∧ fitTrace ia d = [FitEvent.raiseUnknownIA]
    ∧ FitEvent.returnEstimate ∉ fitTrace "iteration" d
    ∧ (fitTrace "iteration" d).headD FitEvent.raiseUnknownIA = FitEvent.computeEstimate
    ∧ (fitTrace "iteration" d = [FitEvent.computeEstimate, FitEvent.raiseRecursion]
        ↔ resolveDnoise "iteration" d = Dnoise.selfLambda)
    ∧ fitTrace "iteration" Dnoise.gaussHName
        = [FitEvent.computeEstimate, FitEvent.raiseRecursion]
    ∧ fitTrace "iteration" Dnoise.none
        = [FitEvent.computeEstimate, FitEvent.raiseIteration] := by
  have hmem : "iteration" ∈ threeModes := by decide
  refine ⟨?_, ?_, ?_, ?_, ?_, rfl, rfl⟩
  · simp [failsFastAt, fitTrace, h, isRaise]
  · simp [fitTrace, h]
  · by_cases hd : resolveDnoise "iteration" d = Dnoise.selfLambda <;>
      simp [fitTrace, hmem, hd]
  · by_cases hd : resolveDnoise "iteration" d = Dnoise.selfLambda <;>
      simp [fitTrace, hmem, hd]
  · by_cases hd : resolveDnoise "iteration" d = Dnoise.selfLambda <;>
      simp [fitTrace, hmem, hd]

/-- Witness for C3 amended at the concrete mode "bogus" with no noise
model configured. -/
theorem C3_unknown_mode_fails_fast_witness :
    "bogus" ∉ threeModes
    ∧ (failsFastAt "bogus" Dnoise.none = true
      ∧ fitTrace "bogus" Dnoise.none = [FitEvent.raiseUnknownIA]
      ∧ FitEvent.returnEstimate ∉ fitTrace "iteration" Dnoise.none
      ∧ (fitTrace "iteration" Dnoise.none).headD FitEvent.raiseUnknownIA
          = FitEvent.computeEstimate
      ∧ (fitTrace "iteration" Dnoise.none
            = [FitEvent.computeEstimate, FitEvent.raiseRecursion]
          ↔ resolveDnoise "iteration" Dnoise.none = Dnoise.selfLambda)
      ∧ fitTrace "iteration" Dnoise.gaussHName
          = [FitEvent.computeEstimate, FitEvent.raiseRecursion]
      ∧ fitTrace "iteration" Dnoise.none
          = [FitEvent.computeEstimate, FitEvent.raiseIteration]) :=
  ⟨by decide, C3_unknown_mode_fails_fast "bogus" Dnoise.none (by decide)⟩

/-- C5: the specification claims that n_neighbors or K exceeding the
sample count is clamped with a warning and never fatal.  The code calls
warnings.warn without ever importing the warnings module, so each clamp
branch raises NameError instead of clamping: with 5 samples and
n_neighbors = 10, with 5 samples and the default n_neighbors = 20, and
with K = 50 on 50 samples, fit dies before doing anything. -/
theorem C5_clamp_raises_nameError :
    fitValidate ⟨5, 3, true⟩ (Option.some 10) 5 false
      = Except.error (PyError.nameError "warnings")
    ∧ fitValidate ⟨5, 3, true⟩ Option.none 4 true
      = Except.error (PyError.nameError "warnings")
    ∧ fitValidate ⟨50, 3, true⟩ (Option.some 10) 50 false
      = Except.error (PyError.nameError "warnings") := by
  refine ⟨rfl, rfl, rfl⟩

/-- C6: the specification claims an invalid comb value fails with a
validation error naming the allowed set before any numerical work.  In
the code the pointwise-estimate loop of line 161 runs first, and the
message of the ValueError raised afterwards names only mean and median,
omitting the accepted default mle. -/
theorem C6_comb_error_after_work :
    neighborhoodTrace "bogus" = [NbEvent.computePointwise, NbEvent.raiseInvalidComb]
    ∧ (neighborhoodTrace "bogus").headD NbEvent.combineOk = NbEvent.computePointwise
    ∧ containsStr combErrorMsg "mle" = false
    ∧ containsStr combErrorMsg "mean" = true
    ∧ containsStr combErrorMsg "median" = true
    ∧ neighborhoodTrace "mle" = [NbEvent.computePointwise, NbEvent.combineOk] := by
  refine ⟨rfl, rfl, by decide, by decide, by decide, rfl⟩

/-- C7 counterexample: a fit call on an estimator configured with
dnoise = "dnoiseGaussH" rewrites the stored dnoise attribute to the
bound method, so the stored option values are not unchanged across the
call. -/
theorem C7_dnoise_mutated_by_fit :
    ((fitStored ⟨Dnoise.gaussHName, 0, Option.none, "Haro", false, true, 5⟩ 10 5).2).dnoise
      = Dnoise.gaussHFn
    ∧ Dnoise.gaussHFn ≠ Dnoise.gaussHName := by
  exact ⟨rfl, by decide⟩

/-- C7 amended: across any fit call (returning or raising), the stored
sigma, n, integral_approximation, unbiased, neighborhood_based and K are
unchanged, but dnoise is either unchanged or rewritten in place to its
resolved form (the bound method for the configuration string, the
self-referential lambda when integral_approximation is not "Haro" and a
noise model is present), and the rewritten value persists on the
estimator. -/
theorem C7_fields_preserved_except_dnoise (o : StoredOptions) (lenX nNb : ℕ) :
    ((fitStored o lenX nNb).2.sigma = o.sigma
      ∧ (fitStored o lenX nNb).2.n = o.n
      ∧ (fitStored o lenX nNb).2.integral_approximation = o.integral_approximation
      ∧ (fitStored o lenX nNb).2.unbiased = o.unbiased
      ∧ (fitStored o lenX nNb).2.neighborhood_based = o.neighborhood_based
      ∧ (fitStored o lenX nNb).2.K = o.K)
    ∧ ((fitStored o lenX nNb).2.dnoise = o.dnoise
      ∨ (fitStored o lenX nNb).2.dnoise
          = resolveDnoise o.integral_approximation o.dnoise) := by
  unfold fitStored
  split_ifs <;> simp [apply_ite Prod.snd]

/-- C8: in neighborhood-based mode, comb = "mle" combines the pointwise
estimates as 1 / mean(1 / estimates), which equals the reciprocal of the
arithmetic mean of the reciprocals (length over sum of reciprocals);
comb = "mean" is the arithmetic mean and comb = "median" the numpy
median of the same array. -/
theorem C8_combination_laws (pw : List ℝ) :
    combine "mle" pw = Except.ok (1 / npMean (pw.map (fun x => 1 / x)))
    ∧ 1 / npMean (pw.map (fun x => 1 / x))
        = (pw.length : ℝ) / (pw.map (fun x => 1 / x)).sum
    ∧ combine "mean" pw = Except.ok (pw.sum / (pw.length : ℝ))
    ∧ combine "median" pw = Except.ok (npMedian pw) := by
  refine ⟨rfl, ?_, rfl, rfl⟩
  rw [npMean, one_div_div, List.length_map]

/-- C2: the specification claims that the non-neighborhood branch feeds
the sorted deduplicated truncated distance vector to the estimator once,
with sqrt(2)*sigma as the effective noise scale.  The vector
construction is as claimed (sorted ascending, deduplicated, at most
n_neighbors entries, drawn from the flattened matrix) and the call is
made once, but _fit never reads its sigma parameter: the call at
line 280 passes self.sigma, so the scale reaching the integrator for a
unit-sigma configuration is 1 and not sqrt(2). -/
theorem C2_effective_sigma_not_doubled :
    (∀ (dists : List (List ℝ)) (nNb : ℕ),
        (buildGlobalRs dists nNb).Sorted (fun a b => a ≤ b)
        ∧ (buildGlobalRs dists nNb).Nodup
        ∧ (buildGlobalRs dists nNb).length ≤ nNb
        ∧ ∀ x ∈ buildGlobalRs dists nNb, x ∈ dists.flatten)
    ∧ (∀ (o : StoredOptions) (Rs : List ℝ) (s1 s2 : ℝ),
        fitDownstreamCall o Rs s1 = fitDownstreamCall o Rs s2)
    ∧ (fitGlobalBranch ⟨Dnoise.gaussHName, 1, Option.none, "Haro", false, false, 5⟩
          [[1, 2], [3, 4]] 3).map HaroCall.sigma = Except.ok 1
    ∧ Real.sqrt 2 * (1 : ℝ) ≠ 1 := by
  refine ⟨fun dists nNb => ⟨?_, ?_, ?_, ?_⟩, fun o Rs s1 s2 => rfl, rfl, ?_⟩
  · exact (List.sorted_insertionSort _ _).sublist (List.take_sublist _ _)
  · exact (List.take_sublist _ _).nodup
      (((List.perm_insertionSort _ _).nodup_iff).mpr (List.nodup_dedup _))
  · exact List.length_take_le _ _
  · intro x hx
    exact List.mem_dedup.mp
      (((List.perm_insertionSort _ _).mem_iff).mp (List.mem_of_mem_take hx))
  · intro hEq
    rw [mul_one] at hEq
    have h2 : (2 : ℝ) = 1 := by
      rw [← Real.mul_self_sqrt (by norm_num : (0 : ℝ) ≤ 2), hEq, one_mul]
    norm_num at h2

/-- Witness for C2 at a concrete one-element distance matrix. -/
theorem C2_effective_sigma_not_doubled_witness :
    (1 : ℝ) ∈ buildGlobalRs [[1]] 3 ∧ (1 : ℝ) ∈ ([[1]] : List (List ℝ)).flatten := by
  have h1 : (1 : ℝ) ∈ buildGlobalRs [[1]] 3 := by
    simp [buildGlobalRs, List.dedup, List.insertionSort, List.orderedInsert]
  exact ⟨h1, (C2_effective_sigma_not_doubled.1 [[1]] 3).2.2.2 1 h1⟩

/-- C4: with no noise model the pointwise estimate equals
kfac / sum of ln(Rk/Rs[i]) over all k entries, where Rk is the maximum
of Rs and kfac is k-2 when unbiased else k-1; npMax is indeed the
maximum of any nonempty vector; and on Rs = [1,2,3,4,5] with
unbiased = False the estimate is exactly
4 / (ln(5/1)+ln(5/2)+ln(5/3)+ln(5/4)+ln(5/5)). -/
theorem C4_noNoise_closed_form :
    (∀ (u : Bool) (Rs : List ℝ),
      maxLikDimEstFromR_noNoise u Rs
        = (if u then (Rs.length : ℝ) - 2 else (Rs.length : ℝ) - 1)
          / ∑ i ∈ Finset.range Rs.length, Real.log (npMax Rs / Rs.getD i 0))
    ∧ (∀ Rs : List ℝ, Rs ≠ [] → npMax Rs ∈ Rs ∧ ∀ x ∈ Rs, x ≤ npMax Rs)
    ∧ maxLikDimEstFromR_noNoise false [1, 2, 3, 4, 5]
        = 4 / (Real.log (5 / 1) + Real.log (5 / 2) + Real.log (5 / 3)
            + Real.log (5 / 4) + Real.log (5 / 5)) := by
  refine ⟨fun u Rs => ?_, fun Rs h => ⟨npMax_mem Rs h, le_npMax Rs⟩, ?_⟩
  · rw [maxLikDimEstFromR_noNoise, sum_map_eq_sum_range]
  · have hmax : npMax [1, 2, 3, 4, 5] = (5 : ℝ) := by
      rw [npMax_cons]
      norm_num [List.foldl_cons, List.foldl_nil, max_def]
    simp only [maxLikDimEstFromR_noNoise, hmax, List.map_cons, List.map_nil,
      List.sum_cons, List.sum_nil, List.length_cons, List.length_nil]
    norm_num
    ring_nf

/-- Witness for C4 at the golden distance vector [1,2,3,4,5]. -/
theorem C4_noNoise_closed_form_witness :
    ([1, 2, 3, 4, 5] : List ℝ) ≠ []
    ∧ (npMax [1, 2, 3, 4, 5] ∈ ([1, 2, 3, 4, 5] : List ℝ)
      ∧ ∀ x ∈ ([1, 2, 3, 4, 5] : List ℝ), x ≤ npMax [1, 2, 3, 4, 5]) :=
  ⟨by simp, C4_noNoise_closed_form.2.1 [1, 2, 3, 4, 5] (by simp)⟩

/-- C9: the no-noise estimator is scale invariant: scaling every
distance by any positive constant leaves the estimate unchanged,
since each ratio Rk/r and hence each log term is unchanged. -/
theorem C9_scale_invariance (c : ℝ) (hc : 0 < c) (u : Bool) (Rs : List ℝ) :
    maxLikDimEstFromR_noNoise u (Rs.map (fun r => c * r))
      = maxLikDimEstFromR_noNoise u Rs := by
  simp only [maxLikDimEstFromR_noNoise, List.length_map, npMax_map_mul c hc.le,
    List.map_map]
  congr 1
  refine congrArg List.sum (List.map_congr_left fun r _ => ?_)
  simp only [Function.comp_apply]
  rw [mul_div_mul_left _ _ (ne_of_gt hc)]

/-- Witness for C9 at c = 2 and Rs = [1,2,3]. -/
theorem C9_scale_invariance_witness :
    (0 : ℝ) < 2
    ∧ maxLikDimEstFromR_noNoise false (([1, 2, 3] : List ℝ).map (fun r => 2 * r))
        = maxLikDimEstFromR_noNoise false [1, 2, 3] :=
  ⟨by norm_num, C9_scale_invariance 2 (by norm_num) false [1, 2, 3]⟩

/-- C10: the validation prologue of fit runs before the
precomputed_knn_arrays branch is consulted and before any estimation:
whenever X is not 2-D, or has fewer than n_neighbors+1 samples
(n_neighbors defaulting to 20), or has fewer than 2 features, fit raises
some error during validation, and the validation outcome does not depend
on whether precomputed arrays were supplied. -/
theorem C10_shape_validated (x : InputX) (nNbArg : Option ℕ) (K : ℕ) (pre : Bool)
    (h : x.is2d = false ∨ x.nSamples < nNbArg.getD 20 + 1 ∨ x.nFeatures < 2) :
    (∃ e, fitValidate x nNbArg K pre = Except.error e)
    ∧ fitValidate x nNbArg K true = fitValidate x nNbArg K false := by
  refine ⟨?_, rfl⟩
  by_cases h1 : x.nSamples ≤ nNbArg.getD 20
  · exact ⟨PyError.nameError "warnings", by simp [fitValidate, h1]⟩
  · by_cases h2 : x.nSamples ≤ K
    · exact ⟨PyError.nameError "warnings", by simp [fitValidate, h1, h2]⟩
    · by_cases h3 : x.is2d = false
      · exact ⟨PyError.valueError "Expected 2D array",
          by simp [fitValidate, checkArray, h1, h2, h3]⟩
      · have h4 : ¬ x.nSamples < nNbArg.getD 20 + 1 := by omega
        have h5 : x.nFeatures < 2 := by
          rcases h with h | h | h
          · exact absurd h h3
          · exact absurd h h4
          · exact h
        exact ⟨PyError.valueError "Found array with too few features",
          by simp [fitValidate, checkArray, h1, h2, h3, h4, h5]⟩

/-- Witness for C10 at a 2-D input with 5 samples and a single feature. -/
theorem C10_shape_validated_witness :
    ((⟨5, 1, true⟩ : InputX).is2d = false
      ∨ (⟨5, 1, true⟩ : InputX).nSamples < (Option.some 3).getD 20 + 1
      ∨ (⟨5, 1, true⟩ : InputX).nFeatures < 2)
    ∧ ((∃ e, fitValidate ⟨5, 1, true⟩ (Option.some 3) 2 true = Except.error e)
      ∧ fitValidate ⟨5, 1, true⟩ (Option.some 3) 2 true
          = fitValidate ⟨5, 1, true⟩ (Option.some 3) 2 false) :=
  ⟨by decide, C10_shape_validated ⟨5, 1, true⟩ (Option.some 3) 2 true (by decide)⟩

end SkdimMLE
